import Mathlib

/-!
A shallow embedding of the audio-capture and download code of the `sona`
repository (`src-tauri/src/audio.rs` and `src-tauri/src/lib.rs`), together
with theorems settling the specification claims about it.

The audio code spawns an external ffmpeg process whose stdout carries raw
PCM; the session state is a single `Mutex<Option<Child>>`.  External
effects (path resolution, spawning, taking stdout/stderr handles) are
modelled as an explicit environment record, and the lifecycle is modelled
as a state machine driven by lists of calls.
-/

deriving instance DecidableEq for Except

namespace Sona

/-- The three platforms distinguished by `cfg(target_os)` in `audio.rs`. -/
inductive Platform
  | windows
  | macos
  | linux
  deriving DecidableEq, Repr

/-- An audio device entry (`AudioDevice`, audio.rs lines 12-16). -/
structure AudioDevice where
  id : String
  label : String
  deriving DecidableEq, Repr

/-- Environment of a single `start_audio_capture` call: the outcomes of its
external operations, in the order the code performs them —
`get_ffmpeg_path` (audio.rs 31-61), `cmd.spawn()` (line 271, yielding a
process handle modelled as a `Nat` pid), `child.stdout.take()` (line 273)
and `child.stderr.take()` (line 274). -/
structure StartEnv where
  ffmpeg_path : Except String String
  spawn_result : Except String Nat
  stdout_ok : Bool
  stderr_ok : Bool
  deriving DecidableEq, Repr

/-- Platform-specific ffmpeg input arguments built by `start_audio_capture`
(audio.rs lines 217-246).  On Windows the `"default"` device id is refused
before any argument reaches the spawn. -/
def input_args (p : Platform) (device_id : String) : Except String (List String) :=
  match p with
  | .windows =>
    if device_id = "default" then
      .error "Cannot capture default dshow device without name"
    else
      .ok ["-f", "dshow", "-i", "audio=" ++ device_id]
  | .macos =>
    .ok ["-f", "avfoundation", "-i",
      if device_id.startsWith ":" then device_id else ":" ++ device_id]
  | .linux =>
    .ok ["-f", "pulse", "-i", device_id]

/-- The common output arguments appended for every capture
(audio.rs lines 248-255): mono, 16000 Hz, raw signed 16-bit little-endian
PCM to stdout. -/
def output_args : List String :=
  ["-ac", "1", "-ar", "16000", "-f", "s16le", "-"]

/-- Result of one `start_audio_capture` call: the new recorded session state
(`*process_guard`), the command result, and the argument list of the
process spawned by this call, if `cmd.spawn()` was reached and succeeded. -/
structure StartOutcome where
  proc : Option Nat
  res : Except String Unit
  spawned : Option (List String)
  deriving DecidableEq, Repr

/-- The command `start_audio_capture` (audio.rs lines 200-316) as a function of the
platform, the call environment, the requested device id and the recorded
session state.  If a process is already recorded it returns an error at
once; otherwise it resolves ffmpeg, builds the argument list, spawns, and
records the child only after both stdio handles are obtained. -/
def start_audio_capture (p : Platform) (env : StartEnv) (device_id : String)
    (st : Option Nat) : StartOutcome :=
  match st with
  | some c => ⟨some c, .error "Capture already running", none⟩
  | none =>
    match env.ffmpeg_path with
    | .error e => ⟨none, .error e, none⟩
    | .ok _ =>
      match input_args p device_id with
      | .error e => ⟨none, .error e, none⟩
      | .ok in_args =>
        let args := in_args ++ output_args
        match env.spawn_result with
        | .error e => ⟨none, .error ("Failed to spawn ffmpeg: " ++ e), none⟩
        | .ok pid =>
          if env.stdout_ok then
            if env.stderr_ok then
              ⟨some pid, .ok (), some args⟩
            else
              ⟨none, .error "Failed to open stderr", some args⟩
          else
            ⟨none, .error "Failed to open stdout", some args⟩

/-- Result of one `stop_audio_capture` call: the new recorded state, the
command result, and whether `child.kill()` was invoked. -/
structure StopOutcome where
  proc : Option Nat
  res : Except String Unit
  killed : Bool
  deriving DecidableEq, Repr

/-- The command `stop_audio_capture` (audio.rs lines 318-329): `take()` the recorded
child; if one was present, kill it.  Either way the recorded state is left
empty and the call succeeds. -/
def stop_audio_capture (st : Option Nat) : StopOutcome :=
  match st with
  | some _ => ⟨none, .ok (), true⟩
  | none => ⟨none, .ok (), false⟩

/-- One external call against the capture session. -/
inductive Call
  | start (env : StartEnv) (device_id : String)
  | stop
  deriving DecidableEq, Repr

/-- Observable system state of a run: the recorded session state together
with counters of hardware-stream opens (successful spawns) and closes
(kills). -/
structure SysState where
  proc : Option Nat
  opens : Nat
  closes : Nat
  deriving DecidableEq, Repr

/-- The initial system state: no capture running, nothing opened or closed. -/
def initState : SysState := ⟨none, 0, 0⟩

/-- One step of the capture lifecycle: dispatch a call to
`start_audio_capture` or `stop_audio_capture` and account for the spawn or
kill it performed. -/
def sys_step (p : Platform) (s : SysState) : Call → SysState
  | .start env d =>
    let o := start_audio_capture p env d s.proc
    ⟨o.proc, s.opens + (if o.spawned.isSome then 1 else 0), s.closes⟩
  | .stop =>
    let o := stop_audio_capture s.proc
    ⟨o.proc, s.opens, s.closes + (if o.killed then 1 else 0)⟩

/-- Run a list of calls from a given state. -/
def sys_run (p : Platform) (s : SysState) (cs : List Call) : SysState :=
  cs.foldl (sys_step p) s

/-- An environment in which every external operation succeeds. -/
def goodEnv : StartEnv := ⟨.ok "ffmpeg", .ok 0, true, true⟩

/-- A call is non-leaking when, as in the actual program, the stdio handles
of a freshly spawned child with piped stdio are always obtainable. -/
def call_ok : Call → Bool
  | .start env _ => env.stdout_ok && env.stderr_ok
  | .stop => true

/-- The result of one `reader.read(&mut buffer)` on the child's stdout
(audio.rs line 283): `ok bytes` models `Ok(n)` carrying the `n` bytes read
(`n = 0` is EOF), `err` models a read error. -/
inductive ReadResult
  | ok (bytes : List (Fin 256))
  | err (msg : String)
  deriving DecidableEq, Repr

/-- An event emitted by the stdout reader task: an `"audio-packet"` event
carrying one chunk, or the final `"audio-capture-stopped"` event. -/
inductive AudioEvent
  | packet (chunk : List (Fin 256))
  | stopped
  deriving DecidableEq, Repr

/-- The stdout reader loop spawned by `start_audio_capture`
(audio.rs lines 278-303), as a function of the sequence of read results it
observes.  `emit_ok k` tells whether the k-th `emit("audio-packet", _)`
succeeds (the loop breaks when an emit fails).  On EOF, a read error or an
emit failure the loop breaks and the `"audio-capture-stopped"` event is
emitted; if the read sequence is exhausted without a break the loop is
still awaiting data and has produced only the packets so far. -/
def reader_loop (emit_ok : Nat → Bool) (k : Nat) : List ReadResult → List AudioEvent
  | [] => []
  | ReadResult.ok [] :: _ => [AudioEvent.stopped]
  | ReadResult.ok (b :: bs) :: rest =>
    if emit_ok k then
      AudioEvent.packet (b :: bs) :: reader_loop emit_ok (k + 1) rest
    else
      [AudioEvent.stopped]
  | ReadResult.err _ :: _ => [AudioEvent.stopped]

/-- Byte length of one read result. -/
def read_len : ReadResult → Nat
  | .ok bytes => bytes.length
  | .err _ => 0

/-- The platform-specific fallback device pushed when the enumerated list is
empty (audio.rs lines 185-194). -/
def default_device : Platform → AudioDevice
  | .windows => ⟨"default", "Default Device"⟩
  | .macos => ⟨":0", "Default Input"⟩
  | .linux => ⟨"default", "Default"⟩

/-- The command `get_audio_devices` (audio.rs lines 63-198) as a function of the outcome
of `get_ffmpeg_path` and of the platform-specific enumeration block
(lines 70-183, which fills `devices` by parsing external command output and
may itself fail on Windows/macOS when running ffmpeg fails).  Lines 185-194
then push the platform default if the list is still empty. -/
def get_audio_devices (p : Platform) (ffmpeg : Except String String)
    (enumerated : Except String (List AudioDevice)) :
    Except String (List AudioDevice) :=
  match ffmpeg with
  | .error e => .error e
  | .ok _ =>
    match enumerated with
    | .error e => .error e
    | .ok devices =>
      .ok (if devices.isEmpty then devices ++ [default_device p] else devices)

/-- HTTP status of a `download_file` response: whether `is_success()` holds,
and the status text used in the error message. -/
structure HttpStatus where
  success : Bool
  text : String
  deriving DecidableEq, Repr

/-- Environment of one `download_file` call (lib.rs lines 322-401): the
outcomes of building the reqwest client, sending the GET request, creating
the output file, and the transfer phase (the `tokio::select!` between the
cancellation notification — giving `Err "Download cancelled"` — and the
copy loop, whose stream, write or flush errors also give `Err`). -/
structure DlEnv where
  client : Except String Unit
  send : Except String HttpStatus
  create_file : Except String Unit
  transfer : Except String Unit
  deriving DecidableEq, Repr

/-- Observable state touched by `download_file`: the keys of the
active-download map (`state.downloads`) and whether a file exists at
`output_path`. -/
structure DlState where
  downloads : List String
  file_exists : Bool
  deriving DecidableEq, Repr

/-- The command `download_file` (lib.rs lines 322-401).  The id is inserted into the
map up front; the explicit cleanups (lines 346-351 and 388-392) remove it
on the status-failure path and after the transfer phase, and errors of the
transfer phase delete the partial file (lines 394-398).  The client-build,
request-send and file-create failures return early with `?` without
touching the map. -/
def download_file (env : DlEnv) (id : String) (s : DlState) :
    DlState × Except String Unit :=
  let s1 : DlState := ⟨id :: s.downloads, s.file_exists⟩
  match env.client with
  | .error e => (s1, .error e)
  | .ok _ =>
    match env.send with
    | .error e => (s1, .error e)
    | .ok status =>
      if status.success = false then
        (⟨s1.downloads.erase id, s1.file_exists⟩,
          .error ("Download failed with status: " ++ status.text))
      else
        match env.create_file with
        | .error e => (s1, .error e)
        | .ok _ =>
          let s2 : DlState := ⟨s1.downloads, true⟩
          let s3 : DlState := ⟨s2.downloads.erase id, s2.file_exists⟩
          match env.transfer with
          | .error e => (⟨s3.downloads, false⟩, .error e)
          | .ok _ => (s3, .ok ())

/-! ### Helper lemmas on the lifecycle state machine -/

lemma sys_run_cons (p : Platform) (s : SysState) (c : Call) (cs : List Call) :
    sys_run p s (c :: cs) = sys_run p (sys_step p s c) cs := rfl

lemma sys_run_append (p : Platform) (s : SysState) (a b : List Call) :
    sys_run p s (a ++ b) = sys_run p (sys_run p s a) b := by
  simp [sys_run]

lemma sys_step_start_active (p : Platform) (s : SysState) (env : StartEnv)
    (d : String) (c : Nat) (h : s.proc = some c) :
    sys_step p s (.start env d) = s := by
  cases s with
  | mk pr op cl =>
    simp only [SysState.proc] at h
    subst h
    simp [sys_step, start_audio_capture]

lemma sys_run_start_active (p : Platform) (env : StartEnv) (d : String)
    (k : Nat) (s : SysState) (c : Nat) (h : s.proc = some c) :
    sys_run p s (List.replicate k (Call.start env d)) = s := by
  induction k with
  | zero => rfl
  | succ n ih =>
    rw [List.replicate_succ, sys_run_cons, sys_step_start_active p s env d c h]
    exact ih

lemma sys_step_stop_idle (p : Platform) (s : SysState) (h : s.proc = none) :
    sys_step p s Call.stop = s := by
  cases s with
  | mk pr op cl =>
    simp only [SysState.proc] at h
    subst h
    simp [sys_step, stop_audio_capture]

lemma sys_run_stop_idle (p : Platform) (k : Nat) (s : SysState)
    (h : s.proc = none) :
    sys_run p s (List.replicate k Call.stop) = s := by
  induction k with
  | zero => rfl
  | succ n ih =>
    rw [List.replicate_succ, sys_run_cons, sys_step_stop_idle p s h]
    exact ih

/-! ### Claims -/

/-- Claim C1, counterexample: with a capture already recorded (state
`some 0`), a further `start_audio_capture` does not return success — it
returns the error `"Capture already running"` — so it cannot be
incrementing a reference count and succeeding. -/
theorem C1_counterexample :
    (start_audio_capture .linux goodEnv "default" (some 0)).res =
      .error "Capture already running" ∧
    (start_audio_capture .linux goodEnv "default" (some 0)).res ≠ .ok () := by
  decide

/-- Claim C1, amended: if a capture session is already Active (a child
process is recorded), a further call to `start_audio_capture` returns the
error `"Capture already running"` immediately, without touching the
hardware (no spawn) and without changing the recorded state; there is no
reference count. -/
theorem C1_start_when_active (p : Platform) (env : StartEnv) (d : String)
    (c : Nat) :
    start_audio_capture p env d (some c) =
      ⟨some c, .error "Capture already running", none⟩ := rfl

/-- Claim C2, counterexample: for N = 2, after two `start` calls and one
stop (that is, N−1 of the stops), the stream is already closed — the
recorded process is gone — contradicting "the stream is still open after
any N−1 of the stops". -/
theorem C2_counterexample :
    (sys_run .linux initState
      [Call.start goodEnv "default", Call.start goodEnv "default",
        Call.stop]).proc.isSome = false := by
  decide

/-- Claim C2, amended: for every N ≥ 1, a sequence of N `start()` calls
followed by N `stop()` calls opens exactly one hardware stream (one spawn)
and closes it exactly once (one kill); but there is no reference counting —
the extra starts fail with an error, and the stream is already closed after
the first stop. -/
theorem C2_refcount (N : Nat) (h : 1 ≤ N) :
    sys_run .linux initState
      (List.replicate N (Call.start goodEnv "default") ++
        List.replicate N Call.stop) = ⟨none, 1, 1⟩ ∧
    sys_run .linux initState
      (List.replicate N (Call.start goodEnv "default") ++ [Call.stop]) =
      ⟨none, 1, 1⟩ := by
  obtain ⟨k, rfl⟩ : ∃ k, N = k + 1 := ⟨N - 1, (Nat.succ_pred_eq_of_pos h).symm⟩
  have h1 : sys_step .linux initState (Call.start goodEnv "default") =
      ⟨some 0, 1, 0⟩ := rfl
  have hstarts : sys_run .linux initState
      (List.replicate (k + 1) (Call.start goodEnv "default")) =
      ⟨some 0, 1, 0⟩ := by
    rw [List.replicate_succ, sys_run_cons, h1,
      sys_run_start_active .linux goodEnv "default" k _ 0 rfl]
  have hstop : sys_step .linux (⟨some 0, 1, 0⟩ : SysState) Call.stop =
      ⟨none, 1, 1⟩ := rfl
  constructor
  · rw [sys_run_append, hstarts, List.replicate_succ, sys_run_cons, hstop,
      sys_run_stop_idle .linux k _ rfl]
  · rw [sys_run_append, hstarts, sys_run_cons]
    exact hstop

/-- Claim C2 witness at N = 3. -/
theorem C2_refcount_witness :
    sys_run .linux initState
      (List.replicate 3 (Call.start goodEnv "default") ++
        List.replicate 3 Call.stop) = ⟨none, 1, 1⟩ ∧
    sys_run .linux initState
      (List.replicate 3 (Call.start goodEnv "default") ++ [Call.stop]) =
      ⟨none, 1, 1⟩ :=
  C2_refcount 3 (by decide)

/-- Claim C3: `stop_audio_capture` always returns success; it leaves the
recorded state empty whether or not a capture was running, and it kills the
recorded process exactly when one was present (so stopping with nothing
running is a pure no-op with the same successful result as a normal
stop). -/
theorem C3_stop_always_succeeds (st : Option Nat) :
    (stop_audio_capture st).res = .ok () ∧
    (stop_audio_capture st).proc = none ∧
    (stop_audio_capture st).killed = st.isSome := by
  cases st <;> simp [stop_audio_capture]

/-- The single-stream invariant: the number of spawned streams equals the
number of killed ones, plus one exactly when a process is recorded. -/
def stream_inv (s : SysState) : Prop :=
  s.opens = s.closes + (if s.proc.isSome then 1 else 0)

lemma sys_step_inv (p : Platform) (s : SysState) (c : Call)
    (hc : call_ok c = true) (h : stream_inv s) :
    stream_inv (sys_step p s c) := by
  cases c with
  | start env d =>
    obtain ⟨fp, sp, so, se⟩ := env
    simp only [call_ok, Bool.and_eq_true] at hc
    obtain ⟨hso, hse⟩ := hc
    subst hso
    subst hse
    cases hp : s.proc with
    | some v =>
      simp only [stream_inv, hp, Option.isSome_some, if_pos] at h ⊢
      simp [sys_step, start_audio_capture, hp, h]
    | none =>
      simp only [stream_inv, hp, Option.isSome_none] at h
      cases fp with
      | error e =>
        simp [stream_inv, sys_step, start_audio_capture, hp, h]
      | ok path =>
        cases hin : input_args p d with
        | error e =>
          simp [stream_inv, sys_step, start_audio_capture, hp, hin, h]
        | ok ia =>
          cases sp with
          | error e =>
            simp [stream_inv, sys_step, start_audio_capture, hp, hin, h]
          | ok pid =>
            simp [stream_inv, sys_step, start_audio_capture, hp, hin, h]
  | stop =>
    cases hp : s.proc with
    | some v =>
      simp only [stream_inv, hp, Option.isSome_some, if_pos] at h ⊢
      simp [sys_step, stop_audio_capture, hp, h]
    | none =>
      simp only [stream_inv, hp, Option.isSome_none] at h
      simp [stream_inv, sys_step, stop_audio_capture, hp, h]

lemma sys_run_inv (p : Platform) (cs : List Call)
    (hc : ∀ c ∈ cs, call_ok c = true) (s : SysState) (h : stream_inv s) :
    stream_inv (sys_run p s cs) := by
  induction cs generalizing s with
  | nil => exact h
  | cons c rest ih =>
    exact ih (fun x hx => hc x (List.mem_cons_of_mem _ hx)) _
      (sys_step_inv p s c (hc c (List.mem_cons_self _ _)) h)

/-- Claim C4: at most one open hardware stream is recorded per session at
any time.  Along any call sequence in which spawned children yield their
stdio handles (as piped children always do), the number of opens never
exceeds the number of closes plus one, it exceeds the closes exactly when
a process is recorded, and `start` refuses — no spawn, state unchanged —
whenever a process is recorded. -/
theorem C4_at_most_one_stream (p : Platform) (cs : List Call)
    (hc : ∀ c ∈ cs, call_ok c = true) :
    (sys_run p initState cs).opens ≤ (sys_run p initState cs).closes + 1 ∧
    ((sys_run p initState cs).proc.isSome = true →
      (sys_run p initState cs).opens = (sys_run p initState cs).closes + 1) ∧
    ((sys_run p initState cs).proc.isSome = false →
      (sys_run p initState cs).opens = (sys_run p initState cs).closes) ∧
    (∀ env d c, (sys_run p initState cs).proc = some c →
      start_audio_capture p env d (sys_run p initState cs).proc =
        ⟨some c, .error "Capture already running", none⟩) := by
  have hinv : stream_inv (sys_run p initState cs) :=
    sys_run_inv p cs hc initState (by simp [stream_inv, initState])
  unfold stream_inv at hinv
  refine ⟨?_, ?_, ?_, ?_⟩
  · cases hs : (sys_run p initState cs).proc.isSome <;> simp [hs] at hinv <;> omega
  · intro hs
    simp [hs] at hinv
    exact hinv
  · intro hs
    simp [hs] at hinv
    exact hinv
  · intro env d c hp
    rw [hp]
    rfl

/-- Claim C4 witness: the invariant at the concrete trace
start, stop, start. -/
theorem C4_witness :
    (∀ c ∈ [Call.start goodEnv "dev", Call.stop, Call.start goodEnv "dev"],
      call_ok c = true) ∧
    ((sys_run .linux initState
        [Call.start goodEnv "dev", Call.stop, Call.start goodEnv "dev"]).opens ≤
      (sys_run .linux initState
        [Call.start goodEnv "dev", Call.stop, Call.start goodEnv "dev"]).closes + 1) :=
  ⟨by decide,
    (C4_at_most_one_stream .linux
      [Call.start goodEnv "dev", Call.stop, Call.start goodEnv "dev"]
      (by decide)).1⟩

/-- Claim C5: every failure of the start sequence from the idle state —
unresolvable ffmpeg path, refused device id, spawn failure, missing stdout
or stderr handle — returns an error and leaves the recorded session state
empty (`None`); nothing is retried, the function simply returns the
error. -/
theorem C5_failure_leaves_idle (p : Platform) (env : StartEnv) (d : String)
    (e : String)
    (h : (start_audio_capture p env d none).res = .error e) :
    (start_audio_capture p env d none).proc = none := by
  obtain ⟨fp, sp, so, se⟩ := env
  cases fp with
  | error e1 => rfl
  | ok path =>
    cases hin : input_args p d with
    | error e2 => simp [start_audio_capture, hin]
    | ok ia =>
      cases sp with
      | error e3 => simp [start_audio_capture, hin]
      | ok pid =>
        cases so with
        | false => simp [start_audio_capture, hin]
        | true =>
          cases se with
          | false => simp [start_audio_capture, hin]
          | true => simp [start_audio_capture, hin] at h

/-- Claim C5 witness: a concrete spawn failure leaves the state empty. -/
theorem C5_witness :
    (start_audio_capture .linux ⟨.ok "ffmpeg", .error "boom", true, true⟩
      "default" none).res = .error "Failed to spawn ffmpeg: boom" ∧
    (start_audio_capture .linux ⟨.ok "ffmpeg", .error "boom", true, true⟩
      "default" none).proc = none :=
  ⟨by decide,
    C5_failure_leaves_idle .linux ⟨.ok "ffmpeg", .error "boom", true, true⟩
      "default" "Failed to spawn ffmpeg: boom" (by decide)⟩

/-- Claim C6: every successful start spawns the capture process with the
platform input arguments followed exactly by `-ac 1 -ar 16000 -f s16le -`:
mono, 16000 Hz, signed 16-bit little-endian PCM on stdout. -/
theorem C6_output_format (p : Platform) (env : StartEnv) (d : String)
    (ia : List String) (hin : input_args p d = .ok ia)
    (h : (start_audio_capture p env d none).res = .ok ()) :
    (start_audio_capture p env d none).spawned =
      some (ia ++ ["-ac", "1", "-ar", "16000", "-f", "s16le", "-"]) := by
  obtain ⟨fp, sp, so, se⟩ := env
  cases fp with
  | error e1 => simp [start_audio_capture] at h
  | ok path =>
    cases sp with
    | error e3 => simp [start_audio_capture, hin] at h
    | ok pid =>
      cases so with
      | false => simp [start_audio_capture, hin] at h
      | true =>
        cases se with
        | false => simp [start_audio_capture, hin] at h
        | true => simp [start_audio_capture, hin, output_args]

/-- Claim C6 witness: a successful Linux start with the default source. -/
theorem C6_witness :
    input_args .linux "default" = .ok ["-f", "pulse", "-i", "default"] ∧
    (start_audio_capture .linux goodEnv "default" none).res = .ok () ∧
    (start_audio_capture .linux goodEnv "default" none).spawned =
      some (["-f", "pulse", "-i", "default"] ++
        ["-ac", "1", "-ar", "16000", "-f", "s16le", "-"]) :=
  ⟨by decide, by decide,
    C6_output_format .linux goodEnv "default" ["-f", "pulse", "-i", "default"]
      (by decide) (by decide)⟩

/-- Unfolding equation of the reader loop at a non-empty successful read. -/
lemma reader_loop_cons_ok (emit_ok : Nat → Bool) (k : Nat) (b : Fin 256)
    (bs : List (Fin 256)) (l : List ReadResult) :
    reader_loop emit_ok k (ReadResult.ok (b :: bs) :: l) =
      if emit_ok k then
        AudioEvent.packet (b :: bs) :: reader_loop emit_ok (k + 1) l
      else [AudioEvent.stopped] := rfl

/-- Claim C7, counterexample: the reader uses a 4096-byte buffer, so a full
read emits a single `"audio-packet"` chunk of 4096 bytes — 2048 s16le
samples — which exceeds the claimed bound of 1024 samples (2048 bytes). -/
theorem C7_counterexample :
    reader_loop (fun _ => true) 0 [ReadResult.ok (List.replicate 4096 0)] =
      [AudioEvent.packet (List.replicate 4096 0)] ∧
    (List.replicate 4096 (0 : Fin 256)).length = 4096 ∧
    ¬ (List.replicate 4096 (0 : Fin 256)).length ≤ 2048 ∧
    ¬ (List.replicate 4096 (0 : Fin 256)).length / 2 ≤ 1024 := by
  refine ⟨?_, by rw [List.length_replicate],
    by rw [List.length_replicate]; decide, by rw [List.length_replicate]; decide⟩
  rw [show List.replicate 4096 (0 : Fin 256) = 0 :: List.replicate 4095 0 from
    List.replicate_succ 0 4095]
  rw [reader_loop_cons_ok]
  rfl

/-- Claim C7, amended: every `"audio-packet"` chunk emitted by the reader
loop carries at most 4096 bytes (2048 s16le samples, the read buffer size),
provided each read returns at most the buffer size — chunks can therefore
exceed 1024 samples, up to 2048. -/
theorem C7_chunk_bound (emit_ok : Nat → Bool) (k : Nat)
    (reads : List ReadResult) (h : ∀ r ∈ reads, read_len r ≤ 4096)
    (chunk : List (Fin 256))
    (hm : AudioEvent.packet chunk ∈ reader_loop emit_ok k reads) :
    chunk.length ≤ 4096 := by
  induction reads generalizing k with
  | nil => simp [reader_loop] at hm
  | cons r rest ih =>
    cases r with
    | ok bytes =>
      cases bytes with
      | nil => simp [reader_loop] at hm
      | cons b bs =>
        by_cases hek : emit_ok k
        · simp only [reader_loop, hek, if_pos, List.mem_cons] at hm
          cases hm with
          | inl heq =>
            have hb := h (ReadResult.ok (b :: bs)) (List.mem_cons_self _ _)
            simp only [read_len] at hb
            cases heq
            exact hb
          | inr hrest =>
            exact ih (k + 1) (fun x hx => h x (List.mem_cons_of_mem _ hx)) hrest
        · simp [reader_loop, hek] at hm
    | err m => simp [reader_loop] at hm

/-- Claim C7 witness: a concrete three-byte read yields a chunk within the
bound. -/
theorem C7_chunk_bound_witness :
    (∀ r ∈ [ReadResult.ok [(0 : Fin 256), 1, 2]], read_len r ≤ 4096) ∧
    AudioEvent.packet [(0 : Fin 256), 1, 2] ∈
      reader_loop (fun _ => true) 0 [ReadResult.ok [0, 1, 2]] ∧
    ([(0 : Fin 256), 1, 2] : List (Fin 256)).length ≤ 4096 :=
  ⟨by decide, by decide,
    C7_chunk_bound (fun _ => true) 0 [ReadResult.ok [0, 1, 2]] (by decide)
      [0, 1, 2] (by decide)⟩

/-- Claim C8: once the reader observes a read error, the remaining stream
contributes nothing — the events are the same as if the trace ended at the
error — and the run consists of some `"audio-packet"` events followed by
exactly one final `"audio-capture-stopped"` event, so no chunk is delivered
after the error and a new start (a new reader task) is needed to resume. -/
theorem C8_error_is_terminal (emit_ok : Nat → Bool) (k : Nat)
    (pre post : List ReadResult) (m : String) :
    reader_loop emit_ok k (pre ++ ReadResult.err m :: post) =
      reader_loop emit_ok k (pre ++ [ReadResult.err m]) ∧
    ∃ packs : List AudioEvent,
      reader_loop emit_ok k (pre ++ [ReadResult.err m]) =
        packs ++ [AudioEvent.stopped] ∧
      ∀ ev ∈ packs, ∃ c, ev = AudioEvent.packet c := by
  induction pre generalizing k with
  | nil =>
    exact ⟨rfl, [], rfl, by simp⟩
  | cons r rest ih =>
    cases r with
    | ok bytes =>
      cases bytes with
      | nil => exact ⟨rfl, [], rfl, by simp⟩
      | cons b bs =>
        by_cases hek : emit_ok k = true
        · obtain ⟨heq, packs, hrun, hpk⟩ := ih (k + 1)
          refine ⟨?_, AudioEvent.packet (b :: bs) :: packs, ?_, ?_⟩
          · simp only [List.cons_append]
            rw [reader_loop_cons_ok, reader_loop_cons_ok, if_pos hek,
              if_pos hek, heq]
          · simp only [List.cons_append]
            rw [reader_loop_cons_ok, if_pos hek, hrun]
          · intro ev hev
            cases hev with
            | head => exact ⟨b :: bs, rfl⟩
            | tail _ htl => exact hpk ev htl
        · refine ⟨?_, [], ?_, by simp⟩
          · simp only [List.cons_append]
            rw [reader_loop_cons_ok, reader_loop_cons_ok, if_neg hek,
              if_neg hek]
          · simp only [List.cons_append]
            rw [reader_loop_cons_ok, if_neg hek]
            rfl
    | err m2 => exact ⟨rfl, [], rfl, by simp⟩

/-- Claim C9: every successful `get_audio_devices` call returns a non-empty
list — when the platform enumeration yields no devices, the
platform-specific default entry is appended before returning. -/
theorem C9_devices_nonempty (p : Platform) (f : Except String String)
    (enum : Except String (List AudioDevice)) (ds : List AudioDevice)
    (h : get_audio_devices p f enum = .ok ds) :
    ds ≠ [] ∧ (enum = .ok [] → ds = [default_device p]) := by
  cases f with
  | error e => simp [get_audio_devices] at h
  | ok path =>
    cases enum with
    | error e => simp [get_audio_devices] at h
    | ok devices =>
      cases devices with
      | nil =>
        simp [get_audio_devices] at h
        subst h
        simp
      | cons d ds' =>
        simp [get_audio_devices] at h
        subst h
        simp

/-- Claim C9 witness: empty Linux enumeration yields the default source. -/
theorem C9_witness :
    get_audio_devices .linux (.ok "ffmpeg") (.ok []) =
      .ok [⟨"default", "Default"⟩] ∧
    ([(⟨"default", "Default"⟩ : AudioDevice)] ≠ [] ∧
      (Except.ok (ε := String) ([] : List AudioDevice) = .ok [] →
        [(⟨"default", "Default"⟩ : AudioDevice)] = [default_device .linux])) :=
  ⟨by decide,
    C9_devices_nonempty .linux (.ok "ffmpeg") (.ok [])
      [⟨"default", "Default"⟩] (by decide)⟩

/-- Claim C10, counterexample: with an accepted HTTP response (status
success) but a failing `File::create`, `download_file` returns the error
through `?` without running the cleanup, so the download id is still in
the active-download map on that exit path. -/
theorem C10_counterexample :
    (download_file ⟨.ok (), .ok ⟨true, "200 OK"⟩, .error "disk full", .ok ()⟩
      "model1" ⟨[], false⟩).2 = .error "disk full" ∧
    "model1" ∈ (download_file
      ⟨.ok (), .ok ⟨true, "200 OK"⟩, .error "disk full", .ok ()⟩
      "model1" ⟨[], false⟩).1.downloads := by
  decide

/-- Claim C10, amended: when the transfer phase (the `tokio::select!` over
cancellation and the copy loop) returns an error, the partial file is
deleted and the id is removed from the map before returning; the id is
likewise removed on the HTTP-status-failure path; but on the client-build,
request-send and file-create error paths the function returns early with
the id still in the map. -/
theorem C10_cleanup (env : DlEnv) (id : String) (s : DlState)
    (hid : id ∉ s.downloads) :
    (∀ st e, env.client = .ok () → env.send = .ok st → st.success = true →
      env.create_file = .ok () → env.transfer = .error e →
      (download_file env id s).2 = .error e ∧
      (download_file env id s).1.file_exists = false ∧
      id ∉ (download_file env id s).1.downloads) ∧
    (∀ st, env.client = .ok () → env.send = .ok st → st.success = false →
      id ∉ (download_file env id s).1.downloads) ∧
    (∀ st e, env.client = .ok () → env.send = .ok st → st.success = true →
      env.create_file = .error e →
      (download_file env id s).2 = .error e ∧
      id ∈ (download_file env id s).1.downloads) := by
  obtain ⟨cl, snd, cf, tr⟩ := env
  have herase : (id :: s.downloads).erase id = s.downloads :=
    List.erase_cons_head id s.downloads
  refine ⟨?_, ?_, ?_⟩
  · rintro st e rfl rfl hsucc rfl rfl
    simp [download_file, hsucc, herase, hid]
  · rintro st rfl rfl hsucc
    simp [download_file, hsucc, herase, hid]
  · rintro st e rfl rfl hsucc rfl
    simp [download_file, hsucc]

/-- Claim C10 witness: a concrete cancelled transfer deletes the file and
clears the map entry. -/
theorem C10_cleanup_witness :
    ("m" ∉ ([] : List String)) ∧
    ((download_file
        ⟨.ok (), .ok ⟨true, "200 OK"⟩, .ok (), .error "Download cancelled"⟩
        "m" ⟨[], false⟩).2 = .error "Download cancelled" ∧
      (download_file
        ⟨.ok (), .ok ⟨true, "200 OK"⟩, .ok (), .error "Download cancelled"⟩
        "m" ⟨[], false⟩).1.file_exists = false ∧
      "m" ∉ (download_file
        ⟨.ok (), .ok ⟨true, "200 OK"⟩, .ok (), .error "Download cancelled"⟩
        "m" ⟨[], false⟩).1.downloads) :=
  ⟨by decide,
    (C10_cleanup
      ⟨.ok (), .ok ⟨true, "200 OK"⟩, .ok (), .error "Download cancelled"⟩
      "m" ⟨[], false⟩ (by decide)).1 ⟨true, "200 OK"⟩ "Download cancelled"
      rfl rfl rfl rfl rfl⟩

end Sona
